import Mathlib

/-!
Verification of the B&H camera monitor repository: a shallow embedding of
`scraper.py` and `send_notification.py` into Lean 4, with theorems about the
new-item detection, the registry persistence, the scrape retry logic, the
HTML-heuristic parse, and the notification loop.

External effects (HTTP responses, the HTML soup extracted by BeautifulSoup,
file-system contents, clock readings) are passed in explicitly as parameters
or oracles; the control flow and the data transformations are translated
line by line from the Python source.
-/

/-! ## String helpers mirroring Python string primitives (ASCII inputs)

All helpers are structurally recursive over `List Char` so that concrete
runs reduce inside the kernel; the library's position-based `String`
loops are avoided on purpose. -/

/-- Python `needle in hay` for strings: substring test. -/
def strContainsSub (hay needle : String) : Bool :=
  hay.toList.tails.any (fun t => needle.toList.isPrefixOf t)

/-- Python `s.lower()` (the inputs here are basic latin). -/
def strLower (s : String) : String :=
  String.mk (s.toList.map Char.toLower)

/-- Python `s.strip()`: whitespace removed from both ends. -/
def strStrip (s : String) : String :=
  String.mk (((s.toList.dropWhile Char.isWhitespace).reverse.dropWhile
    Char.isWhitespace).reverse)

/-- Fuelled core of `strRemove`; the fuel is only a structural-recursion
device, and `fuel ≥ s.length` always suffices because every step consumes
at least one character. -/
def removeOccAux (pat : List Char) : Nat → List Char → List Char
  | _, [] => []
  | 0, s => s
  | fuel + 1, c :: rest =>
    if pat.isPrefixOf (c :: rest) && !pat.isEmpty then
      removeOccAux pat fuel (rest.drop (pat.length - 1))
    else
      c :: removeOccAux pat fuel rest

/-- Python `s.replace(pat, '')`: every leftmost, non-overlapping occurrence
of the (non-empty) pattern is removed. -/
def strRemove (s pat : String) : String :=
  String.mk (removeOccAux pat.toList s.toList.length s.toList)

/-- Core of `strSplitComma`: the accumulator holds the current piece reversed. -/
def splitCommaAux : List Char → List Char → List String
  | acc, [] => [String.mk acc.reverse]
  | acc, c :: rest =>
    if c == ',' then String.mk acc.reverse :: splitCommaAux [] rest
    else splitCommaAux (c :: acc) rest

/-- Python `s.split(',')` (so `"".split(',') = [""]`). -/
def strSplitComma (s : String) : List String :=
  splitCommaAux [] s.toList

/-! ## scraper.py: the parsing heuristics of `scrape_bh_cameras` -/

/-- The hard-coded brand list of `scrape_bh_cameras` (scraper.py lines 125-127). -/
def camera_brands : List String :=
  ["Sony", "Canon", "Nikon", "FUJIFILM", "Fujifilm", "Panasonic", "OM SYSTEM",
   "Leica", "Hasselblad", "Pentax", "Ricoh", "Sigma", "Olympus",
   "GoPro", "DJI", "Insta360", "Kodak", "Polaroid", "Blackmagic"]

/-- The product-word list checked on the cleaned text (scraper.py line 145). -/
def product_words : List String :=
  ["camera", "mirrorless", "dslr", "body", "kit", "lens"]

/-- `any(brand.lower() in text.lower() for brand in camera_brands)`. -/
def brandMatch (text : String) : Bool :=
  camera_brands.any (fun brand => strContainsSub (strLower text) (strLower brand))

/-- The clean-up applied to an h3 text in method 1 (scraper.py lines 140-141):
`text.replace('Key Features','').strip()` then `.replace('Show More','').strip()`. -/
def cleanup (text : String) : String :=
  strStrip (strRemove (strStrip (strRemove text "Key Features")) "Show More")

/-- One iteration of the method-1 h3 loop (scraper.py lines 133-147): the text
must contain some brand case-insensitively, and the cleaned text is appended
when it is long enough, unseen, and mentions a product word. The `break`
leaves the brand loop after the first successful append, and a brand match
whose inner conditions fail lets the loop try the remaining brands against
the same unchanged cleaned text, so at most one append happens per h3. -/
def method1Insert (cameras_found : List String) (text : String) : List String :=
  if brandMatch text then
    let clean_text := cleanup text
    if clean_text.length > 15 && !(cameras_found.contains clean_text) &&
        product_words.any (fun w => strContainsSub (strLower clean_text) w) then
      cameras_found ++ [clean_text]
    else
      cameras_found
  else
    cameras_found

/-- One iteration of the method-2 / method-3 loops (scraper.py lines 153-171):
a non-empty, unseen title that contains some brand is appended as-is. -/
def titleInsert (cameras_found : List String) (text : String) : List String :=
  if !(text == "") && !(cameras_found.contains text) && brandMatch text then
    cameras_found ++ [text]
  else
    cameras_found

/-- The texts BeautifulSoup extracts from the fetched HTML: the `get_text`
of every h3 tag, the h3 title of every `miniProductPage` container (none
when the container has no h3), and the text of every product-name link. -/
structure Soup where
  h3s : List String
  containerTitles : List (Option String)
  linkTexts : List String
deriving DecidableEq

/-- One iteration of the method-2 container loop: containers without an h3
title contribute nothing. -/
def containerStep (cameras_found : List String) (title : Option String) : List String :=
  match title with
  | some t => titleInsert cameras_found t
  | none => cameras_found

/-- The three parsing methods of `scrape_bh_cameras` (scraper.py lines 129-181),
run in order over one shared accumulator list: first the h3 loop, then the
product-container loop, then the product-link loop. -/
def scrape_parse (soup : Soup) : List String :=
  soup.linkTexts.foldl titleInsert
    (soup.containerTitles.foldl containerStep
      (soup.h3s.foldl method1Insert []))

/-! ## scraper.py: the HTTP fetch of `scrape_with_scraperapi` / `scrape_bh_cameras`

An HTTP GET is modelled by an oracle from the attempt number to its result;
each model function returns its Python return value together with the number
of GET requests it issued. -/

/-- The outcome of one `requests.get` call: a response with its status code
and body text, a timeout, or some other raised exception. -/
inductive GetResult where
  | ok (status : Nat) (text : String)
  | timeout
  | exn
deriving DecidableEq

/-- One level of `scrape_with_scraperapi` (scraper.py lines 21-75), with the
result of the recursive retry call passed in (`none` marks exhausted fuel,
which the wrapper never reaches). Per the source: with `attempt > 3` (past
the parameter sets) it returns `None` without a request; a 200 response
longer than 10000 characters is a success; a 500 response with `attempt < 3`
retries with the next attempt number; anything else, a timeout, or an
exception yields `None`. The returned number counts the GETs issued. -/
def scrapeStep (oracle : Nat → GetResult) (attempt : Nat)
    (retry : Option (Option String × Nat)) : Option String × Nat :=
  if attempt ≤ 3 then
    match oracle attempt with
    | GetResult.ok status text =>
      if status == 200 && text.length > 10000 then (some text, 1)
      else if status == 500 && attempt < 3 then
        match retry with
        | none => (none, 1)
        | some p => (p.1, p.2 + 1)
      else (none, 1)
    | _ => (none, 1)
  else (none, 0)

/-- The retry recursion of `scrape_with_scraperapi`, fuelled to make it
structural; retries happen solely while `attempt < 3`, so fuel 3 is never
exhausted from any starting attempt. -/
def scrapeGo (oracle : Nat → GetResult) : Nat → Nat → Option String × Nat
  | 0, attempt => scrapeStep oracle attempt none
  | fuel + 1, attempt =>
    scrapeStep oracle attempt (some (scrapeGo oracle fuel (attempt + 1)))

/-- `scrape_with_scraperapi(url, api_key, attempt)`: the returned HTML (or
`None`) together with the number of GETs issued. -/
def scrape_with_scraperapi (oracle : Nat → GetResult) (attempt : Nat) :
    Option String × Nat :=
  scrapeGo oracle 3 attempt

/-- The premium fallback of `scrape_bh_cameras` (scraper.py lines 96-114):
the body of the premium GET is kept on any 200 status, and `html_content`
stays `None` on any other status, a timeout, or an exception. -/
def premiumFetch (premium : GetResult) : Option String :=
  match premium with
  | GetResult.ok status text => if status == 200 then some text else none
  | _ => none

/-- The fetching part of `scrape_bh_cameras` (scraper.py lines 77-117):
without an API key it returns the empty list immediately; otherwise it runs
the retry logic from attempt 1 and, when that produced nothing, issues one
premium GET. The result is the value of the Python variable `html_content`
together with the total GET count. -/
def scrape_bh_fetch (api_key : Option String) (oracle : Nat → GetResult)
    (premium : GetResult) : Option String × Nat :=
  match api_key with
  | none => (none, 0)
  | some _ =>
    let p := scrape_with_scraperapi oracle 1
    match p.1 with
    | some html => (some html, p.2)
    | none => (premiumFetch premium, p.2 + 1)

/-- `scrape_bh_cameras()`: the camera list found together with the GET
count. `soupOf` stands for BeautifulSoup: it extracts the relevant texts
from raw HTML. A falsy `html_content` (absent or the empty string) short
circuits to the empty list, as `if not html_content: return []` does. -/
def scrape_bh_cameras (api_key : Option String) (oracle : Nat → GetResult)
    (premium : GetResult) (soupOf : String → Soup) : List String × Nat :=
  let p := scrape_bh_fetch api_key oracle premium
  match p.1 with
  | none => ([], p.2)
  | some html => if html == "" then ([], p.2) else (scrape_parse (soupOf html), p.2)

/-! ## scraper.py: registry persistence and `main` -/

/-- The JSON document read from `data/cameras.json`: the fields `main` uses. -/
structure RegistryDoc where
  cameras : List String
  last_updated : Option String
deriving DecidableEq

/-- The JSON document `main` writes through `save_cameras`. -/
structure SavedDoc where
  cameras : List String
  last_updated : String
  total_cameras_tracked : Nat
  note : Option String
deriving DecidableEq

/-- `load_existing_cameras()` (scraper.py lines 8-13): the parsed file when
`data/cameras.json` exists, and the default document otherwise. -/
def load_existing_cameras (file : Option RegistryDoc) : RegistryDoc :=
  match file with
  | some doc => doc
  | none => { cameras := [], last_updated := none }

/-- `find_new_cameras(current_cameras, existing_data)` (scraper.py lines
183-191): Python sets become `Finset String`, and the function returns
`current_set - all_previous_cameras` and `all_previous_cameras | current_set`. -/
def find_new_cameras (current_cameras : List String) (existing_data : RegistryDoc) :
    Finset String × Finset String :=
  let all_previous_cameras := existing_data.cameras.toFinset
  let current_set := current_cameras.toFinset
  (current_set \ all_previous_cameras, all_previous_cameras ∪ current_set)

/-- A Python `list(s)` of a set, in some definite order (Python leaves the
order unspecified; no claim depends on it). -/
def setToList (s : Finset String) : List String :=
  s.sort (· ≤ ·)

/-- What one run of `main` writes: the document passed to `save_cameras`
(when any), and the lines written to `new_cameras.txt` (when the file is
touched at all). -/
structure MainResult where
  saved : Option SavedDoc
  newFile : Option (List String)
deriving DecidableEq

/-- `main()` (scraper.py lines 193-264) as a function of the API-key
presence, the persisted file, the scraped list and the clock. Without the
key it returns at once. With an empty scrape it initializes an empty
database when nothing was tracked before, and always truncates
`new_cameras.txt`. Otherwise it saves the union with a derived count and
writes every newly found name to `new_cameras.txt`. -/
def mainRun (keyPresent : Bool) (file : Option RegistryDoc)
    (current_cameras : List String) (now : String) : MainResult :=
  if !keyPresent then { saved := none, newFile := none }
  else
    let existing_data := load_existing_cameras file
    let previous_count := existing_data.cameras.length
    if current_cameras.isEmpty then
      if previous_count == 0 then
        { saved := some { cameras := [],
                          last_updated := now,
                          total_cameras_tracked := 0,
                          note := some "Awaiting successful scrape" },
          newFile := some [] }
      else
        { saved := none, newFile := some [] }
    else
      let found := find_new_cameras current_cameras existing_data
      let all_cameras := setToList found.2
      let new_cameras := setToList found.1
      { saved := some { cameras := all_cameras,
                        last_updated := now,
                        total_cameras_tracked := all_cameras.length,
                        note := none },
        newFile := some new_cameras }

/-- The persisted file after a run: rewritten by `save_cameras` when the run
saved a document, untouched otherwise. -/
def fileAfter (file : Option RegistryDoc) (r : MainResult) : Option RegistryDoc :=
  match r.saved with
  | some doc => some { cameras := doc.cameras, last_updated := some doc.last_updated }
  | none => file

/-- The set of names the persisted file holds (the registry as a set). -/
def registrySet (file : Option RegistryDoc) : Finset String :=
  (load_existing_cameras file).cameras.toFinset

/-- One scheduled invocation: key presence, scraped list, clock reading. -/
def runStep (file : Option RegistryDoc) (step : Bool × List String × String) :
    Option RegistryDoc :=
  fileAfter file (mainRun step.1 file step.2.1 step.2.2)

/-- A whole sequence of scheduled invocations, oldest first. -/
def runSeq (steps : List (Bool × List String × String))
    (file : Option RegistryDoc) : Option RegistryDoc :=
  steps.foldl runStep file

/-! ## send_notification.py -/

/-- The outcome of one `requests.post` call: a response with its status
code, or a raised exception. -/
inductive PostOutcome where
  | status (code : Nat)
  | exn
deriving DecidableEq

/-- The recipient loop of `send_courier_email` (send_notification.py lines
23-69), counting POSTs: every recipient gets one POST in order; a non-202
status only logs and the loop continues, while an exception returns `False`
at once, skipping all later recipients. The `Nat` argument indexes the
oracle by POST number. -/
def sendLoop (oracle : Nat → PostOutcome) : Nat → List String → Bool × Nat
  | _, [] => (true, 0)
  | i, _ :: rest =>
    match oracle i with
    | PostOutcome.exn => (false, 1)
    | PostOutcome.status _ =>
      let p := sendLoop oracle (i + 1) rest
      (p.1, p.2 + 1)

/-- `send_courier_email(new_cameras, recipients)` (send_notification.py
lines 5-71): returns the Python return value and the number of POSTs
attempted. A missing `COURIER_API_KEY` returns `False` before any POST; an
empty camera list returns `True` with none. -/
def send_courier_email (api_key : Option String)
    (new_cameras recipients : List String) (oracle : Nat → PostOutcome) :
    Bool × Nat :=
  match api_key with
  | none => (false, 0)
  | some _ =>
    if new_cameras.isEmpty then (true, 0)
    else sendLoop oracle 0 recipients

/-- The line-reading of send_notification.py line 78:
`[line.strip() for line in f if line.strip()]`. -/
def stripLines (lines : List String) : List String :=
  (lines.map strStrip).filter (fun l => !(l == ""))

/-- `main()` of send_notification.py (lines 73-94), returning the number of
POSTs attempted in the run: zero when `new_cameras.txt` is absent or holds
no non-blank line, zero when `EMAIL_RECIPIENTS` is unset or empty, and
otherwise whatever the send loop attempts over the comma-split recipients. -/
def notifyMain (file : Option (List String)) (recipientsStr : String)
    (courier_key : Option String) (oracle : Nat → PostOutcome) : Nat :=
  let new_cameras := match file with
    | none => []
    | some lines => stripLines lines
  if new_cameras.isEmpty then 0
  else if recipientsStr == "" then 0
  else
    let recipients := (strSplitComma recipientsStr).map strStrip
    (send_courier_email courier_key new_cameras recipients oracle).2

/-! ## Claim theorems -/

/-- C1: for every persisted set `previous` and every freshly scraped set
`current`, `find_new_cameras` returns exactly the set difference
`current - previous` as the new items, and exactly the union
`previous ∪ current` as the updated persisted set. -/
theorem find_new_cameras_diff_union (current : List String) (existing : RegistryDoc) :
    (∀ x, x ∈ (find_new_cameras current existing).1 ↔
      x ∈ current ∧ x ∉ existing.cameras) ∧
    (∀ x, x ∈ (find_new_cameras current existing).2 ↔
      x ∈ existing.cameras ∨ x ∈ current) := by
  refine ⟨fun x => ?_, fun x => ?_⟩ <;>
    simp [find_new_cameras, Finset.mem_sdiff, Finset.mem_union, List.mem_toFinset]

/-- C4: new-item detection is idempotent: running `find_new_cameras` again
with the same scrape against the updated registry `previous ∪ current`
yields no new items and leaves the registry at `previous ∪ current`. -/
theorem find_new_cameras_idempotent (current : List String) (existing : RegistryDoc) :
    (find_new_cameras current
      { cameras := setToList (find_new_cameras current existing).2,
        last_updated := none }).1 = ∅ ∧
    (find_new_cameras current
      { cameras := setToList (find_new_cameras current existing).2,
        last_updated := none }).2 = (find_new_cameras current existing).2 := by
  constructor
  · simp only [find_new_cameras, setToList, Finset.sort_toFinset]
    ext x
    simp
    tauto
  · simp only [find_new_cameras, setToList, Finset.sort_toFinset]
    rw [Finset.union_assoc, Finset.union_self]

/-- C2: when the scraped list is empty, the registry (as a set of names)
after the run equals the registry before it, and whenever anything was
tracked before, the run writes nothing at all; only a first run (nothing
tracked yet) writes, and what it writes is an empty registry. -/
theorem mainRun_empty_scrape (keyPresent : Bool) (file : Option RegistryDoc) (now : String) :
    registrySet (fileAfter file (mainRun keyPresent file [] now)) = registrySet file ∧
    (mainRun keyPresent file [] now).saved =
      (if keyPresent = true ∧ (load_existing_cameras file).cameras = [] then
        some { cameras := [], last_updated := now, total_cameras_tracked := 0,
               note := some "Awaiting successful scrape" }
       else none) := by
  cases keyPresent with
  | false => exact ⟨rfl, by simp [mainRun]⟩
  | true =>
    cases file with
    | none =>
      constructor <;>
        simp [mainRun, fileAfter, registrySet, load_existing_cameras]
    | some d =>
      by_cases hnil : d.cameras = []
      · constructor <;>
          simp [mainRun, fileAfter, registrySet, load_existing_cameras, hnil]
      · have h0 : d.cameras.length ≠ 0 := by
          simpa using fun h => hnil (List.length_eq_zero.mp h)
        constructor <;>
          simp [mainRun, fileAfter, registrySet, load_existing_cameras, h0, hnil]

/-- Witness for C1 at concrete previous and current lists. -/
theorem find_new_cameras_diff_union_witness :
    ("Canon R5" ∈ (find_new_cameras ["Sony A7IV", "Canon R5"]
        (RegistryDoc.mk ["Sony A7IV"] none)).1 ↔
      ("Canon R5" ∈ ["Sony A7IV", "Canon R5"] ∧
        "Canon R5" ∉ (RegistryDoc.mk ["Sony A7IV"] none).cameras)) ∧
    ("Sony A7IV" ∈ (find_new_cameras ["Sony A7IV", "Canon R5"]
        (RegistryDoc.mk ["Sony A7IV"] none)).2 ↔
      ("Sony A7IV" ∈ (RegistryDoc.mk ["Sony A7IV"] none).cameras ∨
        "Sony A7IV" ∈ ["Sony A7IV", "Canon R5"])) :=
  ⟨(find_new_cameras_diff_union ["Sony A7IV", "Canon R5"]
      (RegistryDoc.mk ["Sony A7IV"] none)).1 "Canon R5",
   (find_new_cameras_diff_union ["Sony A7IV", "Canon R5"]
      (RegistryDoc.mk ["Sony A7IV"] none)).2 "Sony A7IV"⟩

/-- Witness for C4 at concrete previous and current lists. -/
theorem find_new_cameras_idempotent_witness :
    (find_new_cameras ["Canon R5"]
      { cameras := setToList (find_new_cameras ["Canon R5"]
          (RegistryDoc.mk ["Sony A7IV"] none)).2,
        last_updated := none }).1 = ∅ ∧
    (find_new_cameras ["Canon R5"]
      { cameras := setToList (find_new_cameras ["Canon R5"]
          (RegistryDoc.mk ["Sony A7IV"] none)).2,
        last_updated := none }).2 =
      (find_new_cameras ["Canon R5"] (RegistryDoc.mk ["Sony A7IV"] none)).2 :=
  find_new_cameras_idempotent ["Canon R5"] (RegistryDoc.mk ["Sony A7IV"] none)

/-- Witness for C2 at a concrete non-empty persisted registry. -/
theorem mainRun_empty_scrape_witness :
    registrySet (fileAfter (some (RegistryDoc.mk ["Sony A7IV"] none))
        (mainRun true (some (RegistryDoc.mk ["Sony A7IV"] none)) [] "t")) =
      registrySet (some (RegistryDoc.mk ["Sony A7IV"] none)) ∧
    (mainRun true (some (RegistryDoc.mk ["Sony A7IV"] none)) [] "t").saved =
      (if (true = true) ∧
          (load_existing_cameras (some (RegistryDoc.mk ["Sony A7IV"] none))).cameras = [] then
        some { cameras := [], last_updated := "t", total_cameras_tracked := 0,
               note := some "Awaiting successful scrape" }
       else none) :=
  mainRun_empty_scrape true (some (RegistryDoc.mk ["Sony A7IV"] none)) "t"

/-- Helper for C3: a single run never shrinks the registry set. -/
theorem registrySet_sub_runStep (key : Bool) (file : Option RegistryDoc)
    (current : List String) (now : String) :
    registrySet file ⊆ registrySet (fileAfter file (mainRun key file current now)) := by
  cases key with
  | false => exact subset_rfl
  | true =>
    by_cases hc : current.isEmpty
    · cases file with
      | none => simp [mainRun, fileAfter, registrySet, load_existing_cameras, hc]
      | some d =>
        by_cases hnil : d.cameras = []
        · simp [mainRun, fileAfter, registrySet, load_existing_cameras, hc, hnil]
        · have h0 : d.cameras.length ≠ 0 := by
            simpa using fun h => hnil (List.length_eq_zero.mp h)
          simp [mainRun, fileAfter, registrySet, load_existing_cameras, hc, h0]
    · have hmain : (mainRun true file current now).saved =
          some { cameras := setToList (find_new_cameras current (load_existing_cameras file)).2,
                 last_updated := now,
                 total_cameras_tracked :=
                   (setToList (find_new_cameras current (load_existing_cameras file)).2).length,
                 note := none } := by
        simp [mainRun, hc]
      have hfa : fileAfter file (mainRun true file current now) =
          some { cameras := setToList (find_new_cameras current (load_existing_cameras file)).2,
                 last_updated := some now } := by
        simp [fileAfter, hmain]
      simp only [registrySet, hfa, load_existing_cameras, setToList,
        find_new_cameras, Finset.sort_toFinset]
      exact Finset.subset_union_left

/-- C3: the registry is monotonically append-only: after any single run the
registry set contains the registry set from before that run, and hence
after any sequence of runs it contains what it held before the sequence;
no run removes a name. -/
theorem registry_append_only (key : Bool) (file : Option RegistryDoc)
    (current : List String) (now : String)
    (steps : List (Bool × List String × String)) :
    registrySet file ⊆ registrySet (fileAfter file (mainRun key file current now)) ∧
    registrySet file ⊆ registrySet (runSeq steps file) := by
  refine ⟨registrySet_sub_runStep key file current now, ?_⟩
  induction steps generalizing file with
  | nil => exact subset_rfl
  | cons s rest ih =>
    have h1 : registrySet file ⊆ registrySet (runStep file s) :=
      registrySet_sub_runStep s.1 file s.2.1 s.2.2
    exact h1.trans (ih (runStep file s))

/-- Witness for C3 at a concrete registry, scrape and run sequence. -/
theorem registry_append_only_witness :
    registrySet (some (RegistryDoc.mk ["Sony A7IV"] none)) ⊆
      registrySet (fileAfter (some (RegistryDoc.mk ["Sony A7IV"] none))
        (mainRun true (some (RegistryDoc.mk ["Sony A7IV"] none)) ["Canon R5"] "t")) ∧
    registrySet (some (RegistryDoc.mk ["Sony A7IV"] none)) ⊆
      registrySet (runSeq [(true, ["Canon R5"], "t")]
        (some (RegistryDoc.mk ["Sony A7IV"] none))) :=
  registry_append_only true (some (RegistryDoc.mk ["Sony A7IV"] none)) ["Canon R5"] "t"
    [(true, ["Canon R5"], "t")]

/-- C5: every registry document the program writes has
`total_cameras_tracked` equal to the number of entries of `cameras`, and
`cameras` holds no duplicate name. -/
theorem saved_doc_consistent (key : Bool) (file : Option RegistryDoc)
    (current : List String) (now : String) (doc : SavedDoc)
    (h : (mainRun key file current now).saved = some doc) :
    doc.total_cameras_tracked = doc.cameras.length ∧ doc.cameras.Nodup := by
  cases key with
  | false => exact absurd h (by simp [mainRun])
  | true =>
    by_cases hc : current.isEmpty
    · by_cases h0 : (load_existing_cameras file).cameras.length = 0
      · simp only [mainRun, Bool.not_true, Bool.false_eq_true, if_false, hc, if_true,
          h0, beq_self_eq_true, Option.some.injEq] at h
        subst h
        exact ⟨rfl, List.nodup_nil⟩
      · exact absurd h (by simp [mainRun, hc, h0])
    · simp only [mainRun, Bool.not_true, Bool.false_eq_true, if_false, hc,
        Option.some.injEq] at h
      subst h
      refine ⟨rfl, ?_⟩
      have hnd : (setToList (find_new_cameras current (load_existing_cameras file)).2).Nodup := by
        unfold setToList
        exact Finset.sort_nodup _ _
      exact hnd

/-- Witness for C5 at a concrete first run with an empty scrape, whose
written document is the empty initialization. -/
theorem saved_doc_consistent_witness :
    (SavedDoc.mk [] "t" 0 (some "Awaiting successful scrape")).total_cameras_tracked =
      (SavedDoc.mk [] "t" 0 (some "Awaiting successful scrape")).cameras.length ∧
    (SavedDoc.mk [] "t" 0 (some "Awaiting successful scrape")).cameras.Nodup :=
  saved_doc_consistent true none [] "t"
    (SavedDoc.mk [] "t" 0 (some "Awaiting successful scrape")) (by decide)

/-- Helper: one level issues at most `4 - attempt` GETs whenever the retry
value already does so at `attempt + 1`. -/
theorem scrapeStep_count_le (oracle : Nat → GetResult) (attempt : Nat)
    (retry : Option (Option String × Nat))
    (hretry : ∀ p, retry = some p → p.2 ≤ 4 - (attempt + 1)) :
    (scrapeStep oracle attempt retry).2 ≤ 4 - attempt := by
  unfold scrapeStep
  split
  · rename_i ha
    split
    · split
      · simp
        omega
      · split
        · rename_i h500
          rw [Bool.and_eq_true] at h500
          have h3 : attempt < 3 := by simpa using h500.2
          cases retry with
          | none =>
            simp
            omega
          | some p =>
            have := hretry p rfl
            simp
            omega
        · simp
          omega
    · simp
      omega
  · simp

/-- Helper: from any attempt number, `scrapeGo` issues at most `4 - attempt`
GET requests (so at most 3 from attempt 1 on), for every fuel value. -/
theorem scrapeGo_count_le (oracle : Nat → GetResult) (fuel : Nat) :
    ∀ attempt, (scrapeGo oracle fuel attempt).2 ≤ 4 - attempt := by
  induction fuel with
  | zero =>
    intro attempt
    exact scrapeStep_count_le oracle attempt none (fun p hp => by cases hp)
  | succ n ih =>
    intro attempt
    exact scrapeStep_count_le oracle attempt (some (scrapeGo oracle n (attempt + 1)))
      (fun p hp => by
        cases hp
        exact ih (attempt + 1))

/-- Helper: whenever the attempt number is within the parameter sets, one
level issues at least one GET request. -/
theorem scrapeStep_count_pos (oracle : Nat → GetResult) (attempt : Nat)
    (retry : Option (Option String × Nat)) (ha : attempt ≤ 3) :
    1 ≤ (scrapeStep oracle attempt retry).2 := by
  unfold scrapeStep
  split
  · split
    · split
      · simp
      · split
        · cases retry with
          | none => simp
          | some p => simp
        · simp
    · simp
  · omega

/-- Helper: whenever the attempt number is within the parameter sets,
`scrapeGo` issues at least one GET request. -/
theorem scrapeGo_count_pos (oracle : Nat → GetResult) (fuel attempt : Nat)
    (ha : attempt ≤ 3) :
    1 ≤ (scrapeGo oracle fuel attempt).2 := by
  cases fuel with
  | zero => exact scrapeStep_count_pos oracle attempt none ha
  | succ n =>
    exact scrapeStep_count_pos oracle attempt
      (some (scrapeGo oracle n (attempt + 1))) ha

/-- C8: the retry logic of `scrape_with_scraperapi` always terminates after
at most 3 attempts: from any starting attempt number (attempts are numbered
from 1) it issues at most 3 GET requests, and an attempt number past the
three parameter sets returns `None` without any request. -/
theorem scrape_retry_bounded (oracle : Nat → GetResult) (attempt : Nat)
    (h1 : 1 ≤ attempt) :
    (scrape_with_scraperapi oracle attempt).2 ≤ 3 ∧
    (3 < attempt → scrape_with_scraperapi oracle attempt = (none, 0)) := by
  constructor
  · have := scrapeGo_count_le oracle 3 attempt
    unfold scrape_with_scraperapi
    omega
  · intro h3
    have hn : ¬ (attempt ≤ 3) := by omega
    unfold scrape_with_scraperapi scrapeGo scrapeStep
    simp [hn]

/-- Witness for C8 at the concrete starting attempt 4 with an oracle whose
every GET raises. -/
theorem scrape_retry_bounded_witness :
    (scrape_with_scraperapi (fun _ => GetResult.exn) 4).2 ≤ 3 ∧
    (3 < 4 → scrape_with_scraperapi (fun _ => GetResult.exn) 4 = (none, 0)) :=
  scrape_retry_bounded (fun _ => GetResult.exn) 4 (by decide)

/-- Helper: `scrape_bh_cameras` issues exactly the GETs of its fetch phase. -/
theorem scrape_bh_cameras_count (api_key : Option String) (oracle : Nat → GetResult)
    (premium : GetResult) (soupOf : String → Soup) :
    (scrape_bh_cameras api_key oracle premium soupOf).2 =
      (scrape_bh_fetch api_key oracle premium).2 := by
  unfold scrape_bh_cameras
  dsimp only
  split
  · rfl
  · split <;> rfl

/-- C7 (amended): a run of the scraper does not always perform exactly one
GET to the scraping provider: it performs none when the API key is absent,
and otherwise between one and four (one to three attempts of the retry
logic, plus at most one premium fallback request). -/
theorem scrape_get_count_bounds (oracle : Nat → GetResult) (premium : GetResult)
    (soupOf : String → Soup) (k : String) :
    (scrape_bh_cameras none oracle premium soupOf).2 = 0 ∧
    1 ≤ (scrape_bh_cameras (some k) oracle premium soupOf).2 ∧
    (scrape_bh_cameras (some k) oracle premium soupOf).2 ≤ 4 := by
  have hpos := scrapeGo_count_pos oracle 3 1 (by omega)
  have hle := scrapeGo_count_le oracle 3 1
  have hcases : (scrape_bh_fetch (some k) oracle premium).2 = (scrapeGo oracle 3 1).2 ∨
      (scrape_bh_fetch (some k) oracle premium).2 = (scrapeGo oracle 3 1).2 + 1 := by
    unfold scrape_bh_fetch scrape_with_scraperapi
    dsimp only
    cases hs : (scrapeGo oracle 3 1).1 with
    | some html => simp [hs]
    | none => simp [hs]
  rw [scrape_bh_cameras_count, scrape_bh_cameras_count]
  refine ⟨rfl, ?_, ?_⟩ <;> (rcases hcases with h | h <;> rw [h] <;> omega)

/-- Witness for C7 (amended) at concrete oracles. -/
theorem scrape_get_count_bounds_witness :
    (scrape_bh_cameras none (fun _ => GetResult.exn) GetResult.exn
      (fun _ => Soup.mk [] [] [])).2 = 0 ∧
    1 ≤ (scrape_bh_cameras (some "key") (fun _ => GetResult.exn) GetResult.exn
      (fun _ => Soup.mk [] [] [])).2 ∧
    (scrape_bh_cameras (some "key") (fun _ => GetResult.exn) GetResult.exn
      (fun _ => Soup.mk [] [] [])).2 ≤ 4 :=
  scrape_get_count_bounds (fun _ => GetResult.exn) GetResult.exn
    (fun _ => Soup.mk [] [] []) "key"

/-- Counterexample to C7 as stated: with the API key present, an oracle
answering 500 to every retry attempt and an exception on the premium
fallback, the run performs four GETs, not one. -/
theorem scrape_one_get_counterexample :
    (scrape_bh_cameras (some "key") (fun _ => GetResult.ok 500 "") GetResult.exn
      (fun _ => ⟨[], [], []⟩)).2 = 4 ∧ (4 : Nat) ≠ 1 := by
  exact ⟨by decide, by decide⟩

/-- Helper: when no POST raises, the recipient loop attempts exactly one
POST per recipient. -/
theorem sendLoop_count_all (oracle : Nat → PostOutcome)
    (h : ∀ i, oracle i ≠ PostOutcome.exn) :
    ∀ recipients (i : Nat), (sendLoop oracle i recipients).2 = recipients.length := by
  intro recipients
  induction recipients with
  | nil => intro i; rfl
  | cons r rest ih =>
    intro i
    unfold sendLoop
    cases ho : oracle i with
    | exn => exact absurd ho (h i)
    | status c => simp [ih (i + 1)]

/-- C6 (amended): with a non-empty new-items file, a non-empty recipient
list, a configured courier API key and no POST raising an exception, the
notification step attempts exactly one message per recipient; with an
absent or effectively empty new-items file it attempts none. (As stated
the claim fails: a raised exception aborts the loop before the remaining
recipients, and a missing courier key sends nothing.) -/
theorem notify_one_post_per_recipient (lines : List String) (rstr : String)
    (k : String) (oracle : Nat → PostOutcome)
    (hne : stripLines lines ≠ []) (hr : rstr ≠ "")
    (hok : ∀ i, oracle i ≠ PostOutcome.exn) :
    notifyMain (some lines) rstr (some k) oracle =
      ((strSplitComma rstr).map strStrip).length ∧
    (∀ rstr2 k2 oracle2, notifyMain none rstr2 k2 oracle2 = 0) ∧
    (∀ lines2 rstr2 k2 oracle2, stripLines lines2 = [] →
      notifyMain (some lines2) rstr2 k2 oracle2 = 0) := by
  refine ⟨?_, fun rstr2 k2 oracle2 => rfl, fun lines2 rstr2 k2 oracle2 h2 => ?_⟩
  · have hie : (stripLines lines).isEmpty = false := by
      cases hsl : stripLines lines with
      | nil => exact absurd hsl hne
      | cons a l => rfl
    have hrb : (rstr == "") = false := by
      simpa using hr
    unfold notifyMain send_courier_email
    simp only [hie, hrb, Bool.false_eq_true, if_false]
    exact sendLoop_count_all oracle hok _ 0
  · unfold notifyMain
    simp [h2]

/-- Witness for C6 (amended) at one new item, two recipients, a configured
key and an oracle always answering status 202. -/
theorem notify_one_post_per_recipient_witness :
    notifyMain (some ["Canon R5"]) "a@b,c@d" (some "key")
        (fun _ => PostOutcome.status 202) =
      ((strSplitComma "a@b,c@d").map strStrip).length ∧
    (∀ rstr2 k2 oracle2, notifyMain none rstr2 k2 oracle2 = 0) ∧
    (∀ lines2 rstr2 k2 oracle2, stripLines lines2 = [] →
      notifyMain (some lines2) rstr2 k2 oracle2 = 0) :=
  notify_one_post_per_recipient ["Canon R5"] "a@b,c@d" "key"
    (fun _ => PostOutcome.status 202) (by decide) (by decide)
    (fun i h => PostOutcome.noConfusion h)

/-- Counterexample to C6 as stated: one new item and two configured
recipients, but the POST to the first recipient raises, so only one
message is attempted instead of one per recipient. -/
theorem notify_counterexample :
    notifyMain (some ["Canon R5"]) "a@b,c@d" (some "key")
      (fun _ => PostOutcome.exn) = 1 ∧
    ((strSplitComma "a@b,c@d").map strStrip).length = 2 :=
  ⟨by decide, by decide⟩

/-- Helper: `method1Insert` either leaves the accumulator alone or appends
the cleaned text of a brand-matching h3, when it is not already present. -/
theorem method1Insert_sound (found : List String) (t : String) :
    method1Insert found t = found ∨
    ∃ x, (brandMatch t = true ∧ x = cleanup t) ∧ x ∉ found ∧
      method1Insert found t = found ++ [x] := by
  unfold method1Insert
  split
  · rename_i hb
    dsimp only
    split
    · rename_i hcond
      rw [Bool.and_eq_true, Bool.and_eq_true] at hcond
      right
      refine ⟨cleanup t, ⟨hb, rfl⟩, ?_, rfl⟩
      have := hcond.1.2
      simpa using this
    · exact Or.inl rfl
  · exact Or.inl rfl

/-- Helper: `titleInsert` either leaves the accumulator alone or appends a
brand-matching title that is not already present. -/
theorem titleInsert_sound (found : List String) (t : String) :
    titleInsert found t = found ∨
    ∃ x, brandMatch x = true ∧ x ∉ found ∧ titleInsert found t = found ++ [x] := by
  unfold titleInsert
  split
  · rename_i hcond
    rw [Bool.and_eq_true, Bool.and_eq_true] at hcond
    right
    refine ⟨t, hcond.2, ?_, rfl⟩
    simpa using hcond.1.2
  · exact Or.inl rfl

/-- Helper: `containerStep` is `titleInsert` when the container has a title. -/
theorem containerStep_sound (found : List String) (t? : Option String) :
    containerStep found t? = found ∨
    ∃ x, brandMatch x = true ∧ x ∉ found ∧ containerStep found t? = found ++ [x] := by
  cases t? with
  | none => exact Or.inl rfl
  | some t => exact titleInsert_sound found t

/-- Helper: folding a step that only ever appends fresh elements satisfying
`Q` keeps the accumulator duplicate-free, and every element of the result
is either inherited or satisfies `Q` for some input. -/
theorem foldl_insert_nodup_sound {β : Type} (g : List String → β → List String)
    (Q : β → String → Prop)
    (hg : ∀ fd t, g fd t = fd ∨ ∃ x, Q t x ∧ x ∉ fd ∧ g fd t = fd ++ [x])
    (ts : List β) :
    ∀ found : List String, found.Nodup →
      (ts.foldl g found).Nodup ∧
      ∀ x ∈ ts.foldl g found, x ∈ found ∨ ∃ t ∈ ts, Q t x := by
  induction ts with
  | nil => exact fun found hnd => ⟨hnd, fun x hx => Or.inl hx⟩
  | cons t rest ih =>
    intro found hnd
    simp only [List.foldl_cons]
    rcases hg found t with h | ⟨x, hQ, hx, h⟩
    · rw [h]
      obtain ⟨n1, m1⟩ := ih found hnd
      refine ⟨n1, fun y hy => ?_⟩
      rcases m1 y hy with h1 | ⟨t2, ht2, hq⟩
      · exact Or.inl h1
      · exact Or.inr ⟨t2, List.mem_cons_of_mem _ ht2, hq⟩
    · rw [h]
      have hnd2 : (found ++ [x]).Nodup := by
        rw [List.nodup_append]
        refine ⟨hnd, List.nodup_singleton x, ?_⟩
        intro a ha hax
        rw [List.mem_singleton] at hax
        exact hx (hax ▸ ha)
      obtain ⟨n1, m1⟩ := ih (found ++ [x]) hnd2
      refine ⟨n1, fun y hy => ?_⟩
      rcases m1 y hy with h1 | ⟨t2, ht2, hq⟩
      · rcases List.mem_append.mp h1 with h2 | h2
        · exact Or.inl h2
        · rw [List.mem_singleton] at h2
          exact Or.inr ⟨t, List.mem_cons_self t rest, h2 ▸ hQ⟩
      · exact Or.inr ⟨t2, List.mem_cons_of_mem _ ht2, hq⟩

/-- C9 (amended): the list `scrape_bh_cameras` builds contains no duplicate
name, and every name in it either contains one of the hard-coded brands as
a case-insensitive substring (methods 2 and 3 insert such titles verbatim)
or is the clean-up of an h3 text that contains a brand case-insensitively
(method 1 checks the brand on the raw text but appends the cleaned text,
which can lose the brand). As stated the claim fails: see the
counterexample, where the clean-up destroys the only brand occurrence. -/
theorem scrape_parse_brands (soup : Soup) :
    (scrape_parse soup).Nodup ∧
    ∀ x ∈ scrape_parse soup, brandMatch x = true ∨
      ∃ t ∈ soup.h3s, brandMatch t = true ∧ x = cleanup t := by
  obtain ⟨nd1, m1⟩ := foldl_insert_nodup_sound method1Insert
    (fun t x => brandMatch t = true ∧ x = cleanup t) method1Insert_sound
    soup.h3s [] List.nodup_nil
  obtain ⟨nd2, m2⟩ := foldl_insert_nodup_sound containerStep
    (fun _ x => brandMatch x = true) containerStep_sound
    soup.containerTitles _ nd1
  obtain ⟨nd3, m3⟩ := foldl_insert_nodup_sound titleInsert
    (fun _ x => brandMatch x = true) titleInsert_sound
    soup.linkTexts _ nd2
  unfold scrape_parse
  refine ⟨nd3, fun x hx => ?_⟩
  rcases m3 x hx with hx2 | ⟨_, _, hb⟩
  · rcases m2 x hx2 with hx1 | ⟨_, _, hb⟩
    · rcases m1 x hx1 with h0 | ⟨t, ht, hb, he⟩
      · exact absurd h0 (List.not_mem_nil x)
      · exact Or.inr ⟨t, ht, hb, he⟩
    · exact Or.inl hb
  · exact Or.inl hb

/-- Witness for C9 (amended) at a concrete soup with one well-formed h3
product title. -/
theorem scrape_parse_brands_witness :
    (scrape_parse ⟨["Sony a7 IV Mirrorless Camera body"], [], []⟩).Nodup ∧
    (brandMatch "Sony a7 IV Mirrorless Camera body" = true ∨
      ∃ t ∈ (Soup.mk ["Sony a7 IV Mirrorless Camera body"] [] []).h3s,
        brandMatch t = true ∧ "Sony a7 IV Mirrorless Camera body" = cleanup t) :=
  ⟨(scrape_parse_brands ⟨["Sony a7 IV Mirrorless Camera body"], [], []⟩).1,
   (scrape_parse_brands ⟨["Sony a7 IV Mirrorless Camera body"], [], []⟩).2
     "Sony a7 IV Mirrorless Camera body" (by decide)⟩

/-- Counterexample to C9 as stated: the h3 text contains the brand Sony
only case-insensitively across the removed substring, so the cleaned name
the scraper returns contains no brand at all. -/
theorem scrape_parse_brand_counterexample :
    "ony camera mirrorless body" ∈
      scrape_parse ⟨["Key Featuresony camera mirrorless body"], [], []⟩ ∧
    brandMatch "ony camera mirrorless body" = false :=
  ⟨by decide, by decide⟩

/-- C10: when `data/cameras.json` does not exist, `load_existing_cameras`
returns the default document with no cameras and no timestamp, so a first
run detects every scraped name as new (the previous set acts as empty). -/
theorem load_existing_cameras_default :
    load_existing_cameras none = { cameras := [], last_updated := none } ∧
    ∀ current : List String,
      (find_new_cameras current (load_existing_cameras none)).1 = current.toFinset := by
  refine ⟨rfl, fun current => ?_⟩
  simp [find_new_cameras, load_existing_cameras]

/-- Witness for C10 at a concrete first scrape. -/
theorem load_existing_cameras_default_witness :
    load_existing_cameras none = { cameras := [], last_updated := none } ∧
    (find_new_cameras ["Canon R5"] (load_existing_cameras none)).1 =
      ["Canon R5"].toFinset :=
  ⟨load_existing_cameras_default.1, load_existing_cameras_default.2 ["Canon R5"]⟩
